import Mathlib

/-!
Verification of the tradintel trading engine core against its
natural-language specification.  Python floats are modelled as exact
rationals (ℚ), machine integers as ℤ/ℕ; stateful code is modelled by
explicit state passing.  Every definition is a direct transcription of
the corresponding Python source in `app/`.
-/

namespace Tradintel

/-- Backtest metrics record (`app/backtest.py`, `BacktestMetrics`), restricted
to the fields read by the optimizer score and the evolver fitness. -/
structure BacktestMetrics where
  total_trades : ℕ
  max_drawdown : ℚ
  sharpe_ratio : ℚ
  total_return : ℚ
deriving Repr, DecidableEq

/-- Transcription of `calculate_score` (`app/optimizer.py` lines 39–73):
returns 0 when no trades, otherwise 100 − max_drawdown + sharpe×10 + return×0.1. -/
def calculate_score (metrics : BacktestMetrics) : ℚ :=
  if metrics.total_trades = 0 then 0
  else 100 - metrics.max_drawdown + metrics.sharpe_ratio * 10 + metrics.total_return * (1/10)

/-- Transcription of `calculate_fitness` (`app/genetic_evolution.py` lines 41–56):
returns 0 when no trades, otherwise 100 − max_drawdown + sharpe×10 + return×0.1. -/
def calculate_fitness (metrics : BacktestMetrics) : ℚ :=
  if metrics.total_trades = 0 then 0
  else 100 - metrics.max_drawdown + metrics.sharpe_ratio * 10 + metrics.total_return * (1/10)

/-- C10: the evolver's fitness function and the optimizer's score function are
equal on every metrics record — both return 0 when total_trades = 0 and
otherwise 100 − max_drawdown + sharpe_ratio × 10 + total_return × 0.1. -/
theorem C10_fitness_equals_score (m : BacktestMetrics) :
    calculate_fitness m = calculate_score m := by
  rfl

/-! ## Settings store (`app/storage.py` `get_setting` / `set_setting`) -/

/-- The settings table: key → JSON value.  Only boolean values are needed for
the claims below, so the JSON payload is modelled as `Bool`. -/
abbrev Settings := List (String × Bool)

/-- Transcription of `Storage.get_setting` for a boolean value: return the
stored value for `key`, or `default` when no row exists. -/
def get_setting (settings : Settings) (key : String) (default : Bool) : Bool :=
  match settings.find? (fun kv => kv.1 = key) with
  | some kv => kv.2
  | none => default

/-- Transcription of `_get_trading_paused` (`app/__init__.py` lines 21–24):
reads the `trading_paused` setting with default `True` (paused for safety). -/
def get_trading_paused (settings : Settings) : Bool :=
  get_setting settings "trading_paused" true

/-- The module-level attribute `_trading_paused` that `TradingBot.step`
(`app/bots.py` line 141) attempts to read via `from app import _trading_paused`.
`app/__init__.py` defines the functions `_get_trading_paused` and
`_set_trading_paused` but never a module variable named `_trading_paused`,
so the import raises `ImportError` on every call; `none` models the absent
attribute (a hypothetical present attribute would be `some b`). -/
def app_attr_trading_paused : Option Bool := none

/-- The pause gate of `TradingBot.step` (`app/bots.py` lines 139–155): when the
attribute import succeeds the gate is the attribute's value; on `ImportError`
the handler is `pass` ("If flag not available, continue trading"), i.e. the
gate is off. -/
def paused_gate (attr : Option Bool) : Bool :=
  match attr with
  | some b => b
  | none => false

/-! ## Worker state machine (`app/bots.py` `TradingBot.step`) -/

/-- OHLCV bar (`app/core.py` `Bar`), restricted to the fields the worker and
the strategies read. -/
structure Bar where
  ts : ℤ
  high : ℚ
  low : ℚ
  close : ℚ
deriving Repr, DecidableEq

/-- Transcription of `BotMetrics` (`app/bots.py` lines 36–44). -/
structure BotMetrics where
  equity : ℚ := 0
  cash : ℚ := 0
  pos_qty : ℚ := 0
  avg_price : ℚ := 0
  cum_pnl : ℚ := 0
  trades : ℕ := 0
  score : ℚ := 0
deriving Repr, DecidableEq

/-- The mutable state of a `TradingBot` that `step` reads and writes:
`metrics`, `allocation`, `_last_bar_ts` and `_last_trade_ts`. -/
structure BotState where
  allocation : ℚ
  metrics : BotMetrics
  last_bar_ts : Option ℤ := none
  last_trade_ts : Option ℤ := none
deriving Repr, DecidableEq

/-- Order side literal (`"buy"` / `"sell"`). -/
inductive Side where
  | buy
  | sell
deriving Repr, DecidableEq

/-- Outcome of one `TradingBot.step` invocation, mirroring the early-return
structure and the decision-log kinds of the source. -/
inductive StepEvent where
  | no_bars
  | same_bar
  | skip_min_notional
  | skip_cooldown
  | skip_trading_paused
  | no_trade
  | traded (side : Side) (filled_qty : ℚ) (fill_price : ℚ) (fee : ℚ)
deriving Repr, DecidableEq

/-- Maker fee rate of the paper execution client
(`app/execution.py` `PaperExec.MAKER_FEE_RATE = 0.0000`). -/
def MAKER_FEE_RATE : ℚ := 0

/-- Taker fee rate of the paper execution client
(`app/execution.py` `PaperExec.TAKER_FEE_RATE = 0.0010`). -/
def TAKER_FEE_RATE : ℚ := 1/1000

/-- Fill report returned by an execution client
(`status` is always `"filled"` in `PaperExec.limit_order`). -/
structure Fill where
  filled_qty : ℚ
  avg_price : ℚ
  fee : ℚ
  is_maker : Bool
deriving Repr, DecidableEq

/-- Transcription of `PaperExec.limit_order` (`app/execution.py` lines 57–104):
fills immediately at the limit price for the full quantity; the maker/taker
coin flip (`random.random() < 0.80`) is passed in as `is_maker`; fee is the
notional times the maker (0%) or taker (0.1%) rate. -/
def limit_order (qty : ℚ) (limit_price : ℚ) (is_maker : Bool) : Fill :=
  { filled_qty := qty
    avg_price := limit_price
    fee := qty * limit_price * (if is_maker then MAKER_FEE_RATE else TAKER_FEE_RATE)
    is_maker := is_maker }

/-- Minimum notional gate of `TradingBot.step` (`min_notional = 100.0`). -/
def min_notional : ℚ := 100

/-- Cooldown gate of `step` (`app/bots.py` lines 125–127):
`self._last_trade_ts is not None and (now - self._last_trade_ts) < 300`. -/
def cooldown_active (last_trade_ts : Option ℤ) (now : ℤ) : Bool :=
  match last_trade_ts with
  | some t => decide (now - t < 300)
  | none => false

/-- Mark-to-market update shared by every exit path of `step`:
`avg_price = price; equity = cash + pos_qty × price`. -/
def mark_to_market (m : BotMetrics) (price : ℚ) : BotMetrics :=
  { m with avg_price := price, equity := m.cash + m.pos_qty * price }

/-- Score EMA update of `step` (`app/bots.py` lines 214–218):
`ret = (equity − allocation)/max(1e-9, allocation)`;
`score = 0.9 × score + 0.1 × ret` clamped to `[−0.2, 0.2]`. -/
def score_update (allocation : ℚ) (m : BotMetrics) : BotMetrics :=
  let ret := (m.equity - allocation) / max (1/10^9) allocation
  let score1 := (1 - 1/10) * m.score + (1/10) * ret
  { m with score := max (-(1/5)) (min (1/5) score1) }

/-- The trade-execution block of `TradingBot.step` (`app/bots.py` lines
157–208, the body of `if abs(delta) > 1e-9`): pick the side from the sign of
`delta`, clip buys by available cash, place a limit order 5 bps inside the
mark, and apply the fill to cash and position with fees. -/
def execute_trade (m : BotMetrics) (delta : ℚ) (price : ℚ) (is_maker : Bool) :
    BotMetrics × StepEvent :=
  let side : Side := if delta > 0 then .buy else .sell
  let trade_qty := |delta|
  let trade_cost := trade_qty * price
  -- 3a) no-leverage cap: clip buys by available cash
  let trade_qty :=
    if side = .buy ∧ trade_cost > m.cash then m.cash / price
    else trade_qty
  let limit_price :=
    if side = .buy then price * (9995/10000) else price * (10005/10000)
  let fill := limit_order trade_qty limit_price is_maker
  let m1 :=
    if side = .buy then
      { m with cash := m.cash - (fill.filled_qty * fill.avg_price + fill.fee)
               pos_qty := m.pos_qty + fill.filled_qty }
    else
      { m with cash := m.cash + (fill.filled_qty * fill.avg_price - fill.fee)
               pos_qty := m.pos_qty - fill.filled_qty }
  ({ m1 with trades := m1.trades + 1 },
   StepEvent.traded side fill.filled_qty fill.avg_price fill.fee)

/-- Transcription of `TradingBot.step` (`app/bots.py` lines 78–218).
Inputs beyond the bot state: the fetched `bars`, the strategy's returned
`target_exp` (the strategy object is polymorphic and modelled by its output),
the wall clock `now`, the result `pausedAttr` of `from app import
_trading_paused` (`none` = ImportError), and the paper client's maker/taker
coin flip `is_maker`.  Returns the new state and the decision taken. -/
def step (s : BotState) (bars : List Bar) (target_exp : ℚ) (now : ℤ)
    (pausedAttr : Option Bool) (is_maker : Bool) : BotState × StepEvent :=
  match bars.getLast? with
  | none => (s, .no_bars)
  | some last =>
    if s.last_bar_ts = some last.ts then (s, .same_bar)
    else
      let s := { s with last_bar_ts := some last.ts }
      let price := last.close
      let equity_now := s.metrics.cash + s.metrics.pos_qty * price
      let target_notional := equity_now * target_exp
      let target_qty := target_notional / max (1/10^9) price
      let delta := target_qty - s.metrics.pos_qty
      if |delta| * price < min_notional then
        ({ s with metrics := mark_to_market s.metrics price }, .skip_min_notional)
      else if cooldown_active s.last_trade_ts now then
        ({ s with metrics := mark_to_market s.metrics price }, .skip_cooldown)
      else if paused_gate pausedAttr then
        ({ s with metrics := mark_to_market s.metrics price }, .skip_trading_paused)
      else
        let traded :=
          if |delta| > 1/10^9 then
            let em := execute_trade s.metrics delta price is_maker
            ({ s with metrics := em.1, last_trade_ts := some now }, em.2)
          else (s, .no_trade)
        let s2 := traded.1
        let m2 := mark_to_market s2.metrics price
        let m2 := score_update s2.allocation m2
        ({ s2 with metrics := m2 }, traded.2)

/-- Mark-to-market never changes cash. -/
@[simp] lemma mark_to_market_cash (m : BotMetrics) (price : ℚ) :
    (mark_to_market m price).cash = m.cash := rfl

/-- The score EMA update never changes cash. -/
@[simp] lemma score_update_cash (a : ℚ) (m : BotMetrics) :
    (score_update a m).cash = m.cash := rfl

/-- A fixed single-bar history at price 50 used by the concrete scenarios. -/
def sample_bars : List Bar := [{ ts := 100, high := 50, low := 50, close := 50 }]

/-- Worker state of scenario S1: allocation 1000, all cash, flat. -/
def s1_state : BotState :=
  { allocation := 1000, metrics := { equity := 1000, cash := 1000 } }

/-- C1 (code bug): with the global setting `trading_paused = true`, a worker
step that passes the min-notional and cooldown gates still places an order and
mutates cash, position and trade count.  `app/bots.py` line 141 reads
`from app import _trading_paused`, but `app/__init__.py` defines no module
attribute of that name (only `_get_trading_paused`), so the import raises
`ImportError` and the `except ImportError: pass` branch continues trading:
the pause gate is dead code.  Concretely: allocation 1000, cash 1000, flat,
price 50, target exposure +1 — the step buys 20 units at 49.975 and cash
drops to 0.5, even though the pause setting is on. -/
theorem C1_pause_gate_dead_code :
    get_trading_paused [("trading_paused", true)] = true ∧
    paused_gate app_attr_trading_paused = false ∧
    (step s1_state sample_bars 1 1000 app_attr_trading_paused true).2
      = StepEvent.traded Side.buy 20 (9995/200) 0 ∧
    (step s1_state sample_bars 1 1000 app_attr_trading_paused true).1.metrics.cash = 1/2 ∧
    (step s1_state sample_bars 1 1000 app_attr_trading_paused true).1.metrics.pos_qty = 20 ∧
    (step s1_state sample_bars 1 1000 app_attr_trading_paused true).1.metrics.trades = 1 := by
  refine ⟨rfl, rfl, ?_, ?_, ?_, ?_⟩ <;>
    · norm_num [step, execute_trade, limit_order, mark_to_market, score_update,
        cooldown_active, paused_gate, min_notional, MAKER_FEE_RATE, TAKER_FEE_RATE,
        app_attr_trading_paused, sample_bars, s1_state]
      simp

/-- Worker state for the C5 counterexample: cash 100, short 4 units
(so that closing the short is a buy clipped by the no-leverage cap). -/
def c5_state : BotState :=
  { allocation := 100, metrics := { equity := -100, cash := 100, pos_qty := -4 } }

/-- C5 counterexample: a buy clipped by the no-leverage cap
(`delta = cash / price`) filled as a taker (0.1% fee) leaves cash negative.
Worker with cash 100, position −4 at price 50 and target exposure 0 buys
2 = 100/50 units at the limit price 49.975; the taker fee 0.09995 makes the
total cost 100.04995 > 100, so cash ends at −0.04995 < 0. -/
theorem C5_counterexample :
    (step c5_state sample_bars 0 1000 none false).2
      = StepEvent.traded Side.buy 2 (9995/200) (1999/20000) ∧
    (step c5_state sample_bars 0 1000 none false).1.metrics.cash = -(999/20000) ∧
    (step c5_state sample_bars 0 1000 none false).1.metrics.cash < 0 := by
  refine ⟨?_, ?_, ?_⟩ <;>
    · norm_num [step, execute_trade, limit_order, mark_to_market, score_update,
        cooldown_active, paused_gate, min_notional, MAKER_FEE_RATE, TAKER_FEE_RATE,
        sample_bars, c5_state]
      simp

/-- Cash lower bound for the buy path of `execute_trade`: the filled notional
never exceeds `0.9995 × cash`, so cash stays above `−TAKER_FEE_RATE × cash`;
with a maker fill (fee 0) it stays nonnegative. -/
lemma execute_trade_buy_cash_bound (m : BotMetrics) (delta price : ℚ) (maker : Bool)
    (q p f : ℚ) (hc : 0 ≤ m.cash) (hp : 0 < price)
    (hev : (execute_trade m delta price maker).2 = StepEvent.traded Side.buy q p f) :
    -(TAKER_FEE_RATE * m.cash) ≤ (execute_trade m delta price maker).1.cash ∧
    (maker = true → 0 ≤ (execute_trade m delta price maker).1.cash) := by
  by_cases hd : delta > 0
  · have hq : m.cash / price * (price * (9995/10000)) = m.cash * (9995/10000) := by
      field_simp; ring
    have habs : (0:ℚ) ≤ |delta| := abs_nonneg delta
    have hdp : 0 ≤ |delta| * price := mul_nonneg habs hp.le
    by_cases hclip : |delta| * price > m.cash
    · cases maker with
      | true =>
          simp [execute_trade, limit_order, MAKER_FEE_RATE, TAKER_FEE_RATE, hd, hclip] at hev ⊢
          constructor <;> linarith [hq]
      | false =>
          simp [execute_trade, limit_order, MAKER_FEE_RATE, TAKER_FEE_RATE, hd, hclip] at hev ⊢
          linarith [hq]
    · have hnc : |delta| * price ≤ m.cash := le_of_not_lt hclip
      cases maker with
      | true =>
          simp [execute_trade, limit_order, MAKER_FEE_RATE, TAKER_FEE_RATE, hd, hclip] at hev ⊢
          constructor <;> nlinarith [hdp, hnc]
      | false =>
          simp [execute_trade, limit_order, MAKER_FEE_RATE, TAKER_FEE_RATE, hd, hclip] at hev ⊢
          nlinarith [hdp, hnc]
  · exfalso
    simp [execute_trade, limit_order, hd] at hev

/-- C5 amended: after any successful buy executed by a worker step — clipped
or not, and for either fill outcome of the paper client — cash ends no lower
than `−TAKER_FEE_RATE × cash_before` (so it can go slightly negative on a
taker fill), and with a maker fill (0% fee) cash stays ≥ 0.  The unqualified
`cash ≥ 0` of the claim holds only for maker fills. -/
theorem C5_amended_buy_cash_bound (s : BotState) (bars : List Bar) (exp : ℚ)
    (now : ℤ) (attr : Option Bool) (maker : Bool) (q p f : ℚ)
    (hcash : 0 ≤ s.metrics.cash)
    (hprice : ∀ last ∈ bars.getLast?, 0 < last.close)
    (hev : (step s bars exp now attr maker).2 = StepEvent.traded Side.buy q p f) :
    -(TAKER_FEE_RATE * s.metrics.cash) ≤ (step s bars exp now attr maker).1.metrics.cash ∧
    (maker = true → 0 ≤ (step s bars exp now attr maker).1.metrics.cash) := by
  cases hb : bars.getLast? with
  | none => simp only [step, hb] at hev; simp at hev
  | some last =>
    have hp : 0 < last.close := hprice last (by rw [hb]; rfl)
    simp only [step, hb] at hev ⊢
    split_ifs at hev ⊢ with h1 hmin hcool hpause hdelta
    all_goals
      first
      | (simp at hev; done)
      | (dsimp only at hev ⊢
         simp only [mark_to_market_cash, score_update_cash, one_div] at hev ⊢
         exact execute_trade_buy_cash_bound s.metrics _ last.close maker q p f hcash hp hev)

/-- Witness for the amended C5 theorem: the S3-style input (cash 100, flat,
price 50, full target exposure, maker fill) satisfies the hypotheses, and the
conclusion is checked concretely. -/
theorem C5_amended_witness :
    -(TAKER_FEE_RATE * (100:ℚ)) ≤
        (step { allocation := 100, metrics := { equity := 100, cash := 100 } }
          sample_bars 1 1000 none true).1.metrics.cash ∧
    (true = true → 0 ≤
        (step { allocation := 100, metrics := { equity := 100, cash := 100 } }
          sample_bars 1 1000 none true).1.metrics.cash) :=
  C5_amended_buy_cash_bound
    { allocation := 100, metrics := { equity := 100, cash := 100 } }
    sample_bars 1 1000 none true 2 (9995/200) 0
    (by norm_num)
    (by intro last hl; simp [sample_bars] at hl; subst hl; norm_num)
    (by norm_num [step, execute_trade, limit_order, mark_to_market, score_update,
          cooldown_active, paused_gate, min_notional, MAKER_FEE_RATE, TAKER_FEE_RATE,
          sample_bars]
        simp)

/-! ## Signal confirmation (`app/strategies/__init__.py`, `app/strategy_genome.py`) -/

/-- Confirmation-tracking state shared by all evaluators:
`_current_signal` / `_signal_bars` in the parametric strategies,
`current_signal` / `signal_count` in `GenomeStrategy`. -/
structure ConfirmState where
  current_signal : ℚ
  signal_bars : ℕ
deriving Repr, DecidableEq

/-- The shared state-update step (`app/strategies/__init__.py` lines 61–65 and
`app/strategy_genome.py` lines 323–327): same raw signal increments the
counter, a disagreeing raw signal resets the counter to 1 and records the new
signal. -/
def confirm_update (st : ConfirmState) (raw : ℚ) : ConfirmState :=
  if raw = st.current_signal then { st with signal_bars := st.signal_bars + 1 }
  else { current_signal := raw, signal_bars := 1 }

/-- Emission step of the parametric strategies (`app/strategies/__init__.py`
lines 67–69, identical in `MeanReversion`, `Breakout`, `TrendFollow`): emit the
raw signal once it has been seen `confirm_bars` times, otherwise return 0. -/
def parametric_confirm (confirm_bars : ℕ) (st : ConfirmState) (raw : ℚ) :
    ConfirmState × ℚ :=
  let st2 := confirm_update st raw
  (st2, if st2.signal_bars ≥ confirm_bars then raw else 0)

/-- Emission step of `GenomeStrategy.on_bar` (`app/strategy_genome.py` lines
329–334): emit the raw signal once confirmed, otherwise
"Return previous signal if not confirmed" — but `current_signal` was already
overwritten with the raw signal by the update, and `signal_count ≥ 1` always
holds after the update, so the fallback returns the *new* signal. -/
def genome_confirm (confirm_bars : ℕ) (st : ConfirmState) (raw : ℚ) :
    ConfirmState × ℚ :=
  let st2 := confirm_update st raw
  (st2, if st2.signal_bars ≥ confirm_bars then raw
        else if st2.signal_bars > 0 then st2.current_signal else 0)

/-- C6 (code bug): `GenomeStrategy` does not wait for confirmation.  With
`confirm_bars = 2` and a raw signal that just changed from 0 (held for 5 bars,
buffer already warm at ≥ 50 bars) to 1, the genome evaluator emits 1
immediately while the parametric evaluators return 0; in fact the genome
emission step returns the raw signal on *every* bar, for every `confirm_bars`
and every state, contradicting the code's own comment
"Return previous signal if not confirmed". -/
theorem C6_genome_confirmation_ineffective :
    (genome_confirm 2 ⟨0, 5⟩ 1).2 = 1 ∧
    (parametric_confirm 2 ⟨0, 5⟩ 1).2 = 0 ∧
    ∀ (k : ℕ) (st : ConfirmState) (raw : ℚ), (genome_confirm k st raw).2 = raw := by
  refine ⟨by norm_num [genome_confirm, confirm_update],
          by norm_num [parametric_confirm, confirm_update], ?_⟩
  intro k st raw
  by_cases h : raw = st.current_signal <;>
    simp [genome_confirm, confirm_update, h]

/-! ## Two-level allocator (`app/managers.py`) -/

/-- Per-worker inputs read by the allocator: `metrics.score` and
`metrics.equity`. -/
structure BotPerf where
  score : ℚ
  equity : ℚ
deriving Repr, DecidableEq

/-- The clamp `min(max_alloc_frac, max(min_alloc_frac, f))` of
`app/managers.py` lines 69 and 146. -/
def clamp_frac (min_frac max_frac f : ℚ) : ℚ :=
  min max_frac (max min_frac f)

/-- Raw shares (`app/managers.py` lines 66–67 / 144–145):
`total = sum(scores) or 1.0; fracs = [s / total]` over nonnegative scores. -/
def raw_shares (pos : List ℚ) : List ℚ :=
  let total := if pos.sum = 0 then 1 else pos.sum
  pos.map (fun s => s / total)

/-- Clamped shares (`app/managers.py` line 69 / 146). -/
def clamped_shares (pos : List ℚ) (min_frac max_frac : ℚ) : List ℚ :=
  (raw_shares pos).map (clamp_frac min_frac max_frac)

/-- Renormalized shares (`app/managers.py` lines 70–72 / 147–148):
`s = sum(fracs); fracs = [f / s]`. -/
def renorm_shares (pos : List ℚ) (min_frac max_frac : ℚ) : List ℚ :=
  let fracs := clamped_shares pos min_frac max_frac
  let s := fracs.sum
  fracs.map (fun f => f / s)

/-- Transcription of `StrategyManager._rebalance_within_strategy`
(`app/managers.py` lines 64–76): positive scores, share pipeline, then
`allocation_i = (Σ equity) × f_i`.  Returns the new allocations in bot
order. -/
def rebalance_within_allocations (bots : List BotPerf) (min_frac max_frac : ℚ) :
    List ℚ :=
  let fracs := renorm_shares (bots.map (fun b => max 0 b.score)) min_frac max_frac
  let strat_equity := (bots.map BotPerf.equity).sum
  fracs.map (fun f => strat_equity * f)

/-- Per-manager positive scores of
`PortfolioManager._rebalance_across_strategies` (`app/managers.py` line 143):
`max(0.0, sum(scores) / max(1, len(bots)))`. -/
def manager_pos_score (m : List BotPerf) : ℚ :=
  max 0 ((m.map BotPerf.score).sum / max 1 (m.length : ℚ))

/-- Manager-level targets of `_rebalance_across_strategies`
(`app/managers.py` lines 141–150): share pipeline over the managers' average
positive scores, scaled by total portfolio equity. -/
def manager_targets (managers : List (List BotPerf)) (min_frac max_frac : ℚ) :
    List ℚ :=
  let fracs := renorm_shares (managers.map manager_pos_score) min_frac max_frac
  let total_equity := (managers.map (fun m => (m.map BotPerf.equity).sum)).sum
  fracs.map (fun f => total_equity * f)

/-- Push-down of manager targets to bots (`app/managers.py` lines 152–157):
each bot receives `target × (equity / subtotal)` with `subtotal = sum or
1.0`. -/
def rebalance_across_allocations (managers : List (List BotPerf))
    (min_frac max_frac : ℚ) : List (List ℚ) :=
  (managers.zip (manager_targets managers min_frac max_frac)).map
    (fun mt =>
      let bot_equities := mt.1.map BotPerf.equity
      let subtotal := if bot_equities.sum = 0 then 1 else bot_equities.sum
      bot_equities.map (fun eq => mt.2 * (eq / subtotal)))

/-- The S6-style manager of the spec: three workers with equities
400/300/300 and scores 0.10/−0.05/0.05. -/
def s6_bots : List BotPerf := [⟨1/10, 400⟩, ⟨-(1/20), 300⟩, ⟨1/20, 300⟩]

/-- C4 counterexample: with the `StrategyManager` default bounds
`[0.05, 0.80]` and the spec's own S6 inputs, the renormalization that follows
clamping pushes worker 2's share to 1/21 ≈ 0.0476 < 0.05 — the post-reweight
share violates the lower bound.  Moreover the new allocations sum to the
manager equity 1000, not to the previous `Σ allocation` (here 1500), so the
total allocation is not preserved by the reweighting. -/
theorem C4_counterexample :
    renorm_shares (s6_bots.map (fun b => max 0 b.score)) (1/20) (4/5)
      = [40/63, 1/21, 20/63] ∧
    ((1:ℚ)/21 < 1/20) ∧
    rebalance_within_allocations s6_bots (1/20) (4/5)
      = [40000/63, 1000/21, 20000/63] ∧
    (rebalance_within_allocations s6_bots (1/20) (4/5)).sum = 1000 ∧
    ((1000:ℚ) ≠ 1500) := by
  refine ⟨?_, by norm_num, ?_, ?_, by norm_num⟩ <;>
    norm_num [renorm_shares, clamped_shares, raw_shares, clamp_frac,
      rebalance_within_allocations, s6_bots]

/-- Elementwise division distributes over a list sum. -/
lemma sum_map_div (l : List ℚ) (c : ℚ) :
    (l.map (fun f => f / c)).sum = l.sum / c := by
  simpa [div_eq_mul_inv] using List.sum_map_mul_right l id c⁻¹

/-- Every clamped share lies in `[min_frac, max_frac]` when the bounds are
ordered. -/
lemma clamped_shares_mem_bounds (pos : List ℚ) (minf maxf : ℚ)
    (hmm : minf ≤ maxf) :
    ∀ f ∈ clamped_shares pos minf maxf, minf ≤ f ∧ f ≤ maxf := by
  intro f hf
  simp only [clamped_shares, List.mem_map] at hf
  obtain ⟨g, -, rfl⟩ := hf
  exact ⟨le_min hmm (le_max_left _ _), min_le_left _ _⟩

/-- With a positive lower bound and a nonempty worker list, the renormalized
shares sum to exactly 1. -/
lemma renorm_shares_sum_one (pos : List ℚ) (minf maxf : ℚ)
    (h0 : 0 < minf) (hmm : minf ≤ maxf) (hpos : pos ≠ []) :
    (renorm_shares pos minf maxf).sum = 1 := by
  have hall : ∀ f ∈ clamped_shares pos minf maxf, 0 < f := fun f hf =>
    lt_of_lt_of_le h0 (clamped_shares_mem_bounds pos minf maxf hmm f hf).1
  have hne : clamped_shares pos minf maxf ≠ [] := by
    simp only [clamped_shares, raw_shares, ne_eq, List.map_eq_nil_iff]
    exact hpos
  have hsum : 0 < (clamped_shares pos minf maxf).sum :=
    List.sum_pos _ hall hne
  simp only [renorm_shares, sum_map_div]
  exact div_self hsum.ne'

/-- C4 amended: with `0 < min_alloc_frac ≤ max_alloc_frac` and at least one
worker, (a) every share lies in `[min_frac, max_frac]` after clamping and
*before* the final renormalization (post-renormalization shares can leave the
bounds, as the counterexample shows); (b) the renormalized shares sum to
exactly 1; and (c) the new allocations sum to the manager's total equity —
not to the previous total allocation.  Manager-level shares in
`_rebalance_across_strategies` use the same pipeline (the statement is generic
in the nonnegative-score list `pos`, e.g. `managers.map manager_pos_score`). -/
theorem C4_amended_allocator_bounds (pos : List ℚ) (bots : List BotPerf)
    (minf maxf : ℚ) (h0 : 0 < minf) (hmm : minf ≤ maxf)
    (hpos : pos ≠ []) (hbots : bots ≠ []) :
    (∀ f ∈ clamped_shares pos minf maxf, minf ≤ f ∧ f ≤ maxf) ∧
    (renorm_shares pos minf maxf).sum = 1 ∧
    (rebalance_within_allocations bots minf maxf).sum
      = (bots.map BotPerf.equity).sum := by
  refine ⟨clamped_shares_mem_bounds pos minf maxf hmm,
          renorm_shares_sum_one pos minf maxf h0 hmm hpos, ?_⟩
  have hscores : bots.map (fun b => max 0 b.score) ≠ [] := by
    simp only [ne_eq, List.map_eq_nil_iff]
    exact hbots
  have h1 := renorm_shares_sum_one (bots.map (fun b => max 0 b.score)) minf maxf h0 hmm hscores
  have h2 := List.sum_map_mul_left
    (renorm_shares (bots.map (fun b => max 0 b.score)) minf maxf) id
    ((bots.map BotPerf.equity).sum)
  simpa [rebalance_within_allocations, h1] using h2

/-- Witness for the amended C4 theorem at a concrete input: one worker with
score 1 and equity 100, share list `[1, 0]`, bounds `[0.05, 0.80]`. -/
theorem C4_amended_witness :
    (renorm_shares [1, 0] (1/20) (4/5)).sum = 1 ∧
    (rebalance_within_allocations [⟨1, 100⟩] (1/20) (4/5)).sum
      = (([⟨1, 100⟩] : List BotPerf).map BotPerf.equity).sum :=
  ⟨(C4_amended_allocator_bounds [1, 0] [⟨1, 100⟩] (1/20) (4/5)
      (by norm_num) (by norm_num) (by simp) (by simp)).2.1,
   (C4_amended_allocator_bounds [1, 0] [⟨1, 100⟩] (1/20) (4/5)
      (by norm_num) (by norm_num) (by simp) (by simp)).2.2⟩

/-! ## Backtester Sharpe ratio (`app/backtest.py` `_calculate_metrics`)

The source computes `sharpe = avg_return × sqrt(periods_per_year) / std_dev`
with `std_dev = sqrt(variance)`.  Square roots are irrational, so the value is
represented here by its square together with the sign of `avg_return`:
`sharpe = sign(avg_return) × sqrt(sharpe_sq)`, and two reported Sharpe values
are equal iff their squares and signs agree.  The gate `std_dev > 1e-9` is
equivalent to `variance > (1e-9)²` since both sides are nonnegative. -/

/-- Per-bar equity-curve returns (`app/backtest.py` lines 222–227):
`ret_i = (e_i − e_{i−1}) / max(1e-9, e_{i−1})` over consecutive points. -/
def equity_returns (curve : List (ℤ × ℚ)) : List ℚ :=
  (curve.zip curve.tail).map (fun pq => (pq.2.2 - pq.1.2) / max (1/10^9) pq.1.2)

/-- Mean of the returns (`avg_return = sum(returns) / len(returns)`). -/
def avg_return (rets : List ℚ) : ℚ :=
  rets.sum / rets.length

/-- Population variance of the returns
(`variance = sum((r − avg)²) / len(returns)`). -/
def variance_return (rets : List ℚ) : ℚ :=
  (rets.map (fun r => (r - avg_return rets)^2)).sum / rets.length

/-- The annualization constant hardcoded in `_calculate_metrics`
(`periods_per_year = 365 * 24 * 60  # 1m bars per year`), used for every run
regardless of the run's timeframe. -/
def periods_per_year : ℕ := 365 * 24 * 60

/-- Square of the reported `sharpe_ratio` (`app/backtest.py` lines 221–234):
zero unless the curve has > 1 point, the returns list is nonempty and
`std_dev > 1e-9`; otherwise `(avg² × periods_per_year) / variance`, the square
of `avg × sqrt(periods_per_year) / sqrt(variance)`. -/
def sharpe_sq (curve : List (ℤ × ℚ)) : ℚ :=
  let rets := equity_returns curve
  if curve.length > 1 ∧ rets ≠ [] ∧ variance_return rets > (1/10^9)^2 then
    (avg_return rets)^2 * periods_per_year / variance_return rets
  else 0

/-- Periods per year for a timeframe, following the spec's words
("`N` = periods per year for the timeframe; e.g. N = 365 for 1d bars,
N = 365×24 for 1h bars") over the recognized timeframes. -/
def spec_periods_per_year (tf : String) : ℚ :=
  if tf = "1m" then 365 * 24 * 60
  else if tf = "3m" then 365 * 24 * 20
  else if tf = "5m" then 365 * 24 * 12
  else if tf = "15m" then 365 * 24 * 4
  else if tf = "30m" then 365 * 24 * 2
  else if tf = "1h" then 365 * 24
  else if tf = "4h" then 365 * 6
  else if tf = "8h" then 365 * 3
  else if tf = "1d" then 365
  else 365 / 7

/-- Square of the Sharpe value the claim specifies: the code's formula with
`N` taken from the run's timeframe instead of the hardcoded constant. -/
def spec_sharpe_sq (tf : String) (curve : List (ℤ × ℚ)) : ℚ :=
  let rets := equity_returns curve
  if curve.length > 1 ∧ rets ≠ [] ∧ variance_return rets > (1/10^9)^2 then
    (avg_return rets)^2 * spec_periods_per_year tf / variance_return rets
  else 0

/-- A three-point daily equity curve: 100 → 110 → 110, returns [0.1, 0],
mean 0.05, variance 0.0025. -/
def c7_curve : List (ℤ × ℚ) := [(0, 100), (86400, 110), (172800, 110)]

/-- C7 counterexample: for a run on the `1d` timeframe with the concrete
equity curve 100 → 110 → 110, the code reports
`sharpe = avg × sqrt(365×24×60) / std` (square 525600) while the claim's
formula with N = 365 gives square 365; `avg_return > 0` in both, so the two
positive values differ.  `periods_per_year` is hardcoded to minutes-per-year
for every timeframe. -/
theorem C7_counterexample :
    sharpe_sq c7_curve = 525600 ∧
    spec_sharpe_sq "1d" c7_curve = 365 ∧
    ((525600 : ℚ) ≠ 365) ∧
    0 < avg_return (equity_returns c7_curve) := by
  refine ⟨?_, ?_, by norm_num, ?_⟩ <;>
    norm_num [sharpe_sq, spec_sharpe_sq, periods_per_year,
      equity_returns, avg_return, variance_return, c7_curve] <;>
    (try simp [spec_periods_per_year])

/-- C7 amended: the reported Sharpe equals `avg × sqrt(N) / std` with
`N = 365 × 24 × 60` (minutes per year) for **every** run, i.e. the code
annualizes as if every timeframe were `1m`; equivalently, the reported value
coincides with the claim's formula only when the timeframe is `1m`.  Stated on
squares (the values share the sign of `avg_return`). -/
theorem C7_amended_sharpe_fixed_annualization (curve : List (ℤ × ℚ)) :
    sharpe_sq curve = spec_sharpe_sq "1m" curve := by
  simp only [sharpe_sq, spec_sharpe_sq, spec_periods_per_year, periods_per_year]
  norm_num

/-! ## Trade log and round-trip reconstruction (`app/storage.py`) -/

/-- A row of the `trades` table joined with `bots.manager`
(`SELECT t.id, t.ts, t.bot_name, b.manager, t.symbol, t.side, t.qty, t.price`);
`manager` is an `Option` because of the LEFT JOIN. -/
structure TradeRow where
  id : ℕ
  ts : ℤ
  bot_name : String
  symbol : String
  manager : Option String
  side : String
  qty : ℚ
  price : ℚ
deriving Repr, DecidableEq

/-- An open FIFO lot: `(open_ts, side, remaining_qty, vwap_price, manager)`. -/
structure Lot where
  open_ts : ℤ
  side : String
  qty : ℚ
  vwap_price : ℚ
  manager : Option String
deriving Repr, DecidableEq

/-- A reconstructed round-trip record (the dict built in `list_roundtrips`,
`app/storage.py` lines 690–702; its keys are exactly the fields below). -/
structure RoundTrip where
  bot : String
  manager : Option String
  symbol : String
  side : String
  qty : ℚ
  entry_price : ℚ
  exit_price : ℚ
  pnl : ℚ
  pnl_pct : ℚ
  open_ts : ℤ
  close_ts : ℤ
  duration_s : ℤ
deriving Repr, DecidableEq

/-- The `1e-12` dust threshold used by the FIFO matcher. -/
def EPS : ℚ := 1/10^12

/-- Transcription of Python's `side.upper()` on the side strings that
`record_trade` writes to the trade log (`"buy"` / `"sell"`). -/
def side_upper (s : String) : String :=
  if s = "buy" then "BUY" else if s = "sell" then "SELL" else s

/-- The inner while-loop of `list_roundtrips`
(`while remain > 1e-12 and lots and lots[0][1] != side`, `app/storage.py`
lines 668–711): match the incoming quantity against opposite-side lots in FIFO
order, emitting one round-trip per partial match.  In the branch that leaves a
reduced head lot in place, `take = remain` (because `lot.qty − take > EPS`
forces `min lot.qty remain = remain`), so `remain₂ = 0` and the source loop
exits on its next condition check; the transcription returns directly.
Returns (remaining lots, appended output, unmatched remainder). -/
def fifo_match (bot sym side : String) (px_eff : ℚ) (ts : ℤ) :
    ℚ → List Lot → List RoundTrip → List Lot × List RoundTrip × ℚ
  | remain, [], acc => ([], acc, remain)
  | remain, lot :: rest, acc =>
    if remain > EPS ∧ lot.side ≠ side then
      let take := min lot.qty remain
      let lot_qty := lot.qty - take
      let remain2 := remain - take
      let side_label := if lot.side = "BUY" then "LONG" else "SHORT"
      let pnl := if side_label = "LONG" then (px_eff - lot.vwap_price) * take
                 else (lot.vwap_price - px_eff) * take
      let pnl_pct := if side_label = "LONG" then (px_eff - lot.vwap_price) / lot.vwap_price
                     else (lot.vwap_price - px_eff) / lot.vwap_price
      let rt : RoundTrip :=
        { bot := bot, manager := lot.manager, symbol := sym, side := side_label,
          qty := take, entry_price := lot.vwap_price, exit_price := px_eff,
          pnl := pnl, pnl_pct := pnl_pct,
          open_ts := lot.open_ts, close_ts := ts, duration_s := ts - lot.open_ts }
      if lot_qty ≤ EPS then
        fifo_match bot sym side px_eff ts remain2 rest (acc ++ [rt])
      else
        ({ lot with qty := lot_qty } :: rest, acc ++ [rt], remain2)
    else (lot :: rest, acc, remain)

/-- The per-trade body of the group loop (`app/storage.py` lines 664–716):
skip nonpositive quantities, apply the optional fee-bps slippage to the price,
enqueue same-side lots, otherwise FIFO-match and enqueue any unmatched
remainder as a flipped lot. -/
def process_trade (bot sym : String) (fee : ℚ)
    (st : List Lot × List RoundTrip) (t : TradeRow) : List Lot × List RoundTrip :=
  let lots := st.1
  let acc := st.2
  if t.qty ≤ 0 then (lots, acc)
  else
    let side := side_upper t.side
    let px_eff := t.price * (1 + (if side = "BUY" then fee else -fee))
    if (match lots with
        | [] => true
        | lot :: _ => lot.side = side) then
      (lots ++ [{ open_ts := t.ts, side := side, qty := t.qty, vwap_price := px_eff,
                  manager := t.manager }], acc)
    else
      let r := fifo_match bot sym side px_eff t.ts t.qty lots acc
      if r.2.2 > EPS then
        (r.1 ++ [{ open_ts := t.ts, side := side, qty := r.2.2, vwap_price := px_eff,
                   manager := t.manager }], r.2.1)
      else (r.1, r.2.1)

/-- Round-trips of one `(bot, symbol)` group: left fold of `process_trade`
over the group's trades in id order. -/
def roundtrips_for_group (bot sym : String) (fee : ℚ) (trades : List TradeRow) :
    List RoundTrip :=
  (trades.foldl (process_trade bot sym fee) ([], [])).2

/-- First-appearance group keys, modelling Python dict insertion order of
`groups.setdefault((bot, sym), []).append(...)`. -/
def group_keys (trades : List TradeRow) : List (String × String) :=
  trades.foldl
    (fun ks t => if ks.contains (t.bot_name, t.symbol) then ks
                 else ks ++ [(t.bot_name, t.symbol)]) []

/-- Stable insertion for ascending id order, modelling `ORDER BY t.id ASC`. -/
def insert_by_id (t : TradeRow) : List TradeRow → List TradeRow
  | [] => [t]
  | x :: xs => if x.id ≤ t.id then x :: insert_by_id t xs else t :: x :: xs

/-- Sort the fetched rows by trade id ascending. -/
def sort_by_id (l : List TradeRow) : List TradeRow :=
  l.foldr insert_by_id []

/-- Stable insertion for descending close_ts, modelling Python's stable
`out.sort(key=close_ts, reverse=True)`. -/
def insert_desc (r : RoundTrip) : List RoundTrip → List RoundTrip
  | [] => [r]
  | x :: xs => if x.close_ts ≥ r.close_ts then x :: insert_desc r xs else r :: x :: xs

/-- Stable sort of the output by `close_ts` descending. -/
def sort_desc (l : List RoundTrip) : List RoundTrip :=
  l.foldr insert_desc []

/-- Transcription of `Storage.list_roundtrips` (`app/storage.py` lines
611–719) without the optional bot/symbol/manager filters: scan trades in id
order grouped by `(bot, symbol)` (first-appearance order), FIFO-match each
group, then sort all round-trips by `close_ts` descending and truncate to
`limit`. -/
def list_roundtrips (trades : List TradeRow) (fee_bps : ℚ) (limit : ℕ) :
    List RoundTrip :=
  let rows := sort_by_id trades
  let fee := fee_bps / 10000
  let keys := group_keys rows
  let out := (keys.map (fun k =>
    roundtrips_for_group k.1 k.2 fee
      (rows.filter (fun t => t.bot_name == k.1 && t.symbol == k.2)))).flatten
  (sort_desc out).take limit

/-- The spec's S4 trade sequence for one worker/symbol:
buy 1 @ 100, buy 1 @ 110, sell 1 @ 130, sell 1 @ 120. -/
def s4_trades : List TradeRow :=
  [{ id := 1, ts := 1, bot_name := "w", symbol := "BTC_USDT", manager := none,
     side := "buy", qty := 1, price := 100 },
   { id := 2, ts := 2, bot_name := "w", symbol := "BTC_USDT", manager := none,
     side := "buy", qty := 1, price := 110 },
   { id := 3, ts := 3, bot_name := "w", symbol := "BTC_USDT", manager := none,
     side := "sell", qty := 1, price := 130 },
   { id := 4, ts := 4, bot_name := "w", symbol := "BTC_USDT", manager := none,
     side := "sell", qty := 1, price := 120 }]

/-- C8: on the S4 sequence with `fee_bps = 0`, FIFO reconstruction returns
exactly two LONG round-trips — entry 110 / exit 120 / pnl 10 (closed last,
listed first by the descending close_ts sort) and entry 100 / exit 130 /
pnl 30 — whose pnl values sum to 40. -/
theorem C8_s4_roundtrips :
    list_roundtrips s4_trades 0 100 =
      [{ bot := "w", manager := none, symbol := "BTC_USDT", side := "LONG",
         qty := 1, entry_price := 110, exit_price := 120, pnl := 10,
         pnl_pct := 1/11, open_ts := 2, close_ts := 4, duration_s := 2 },
       { bot := "w", manager := none, symbol := "BTC_USDT", side := "LONG",
         qty := 1, entry_price := 100, exit_price := 130, pnl := 30,
         pnl_pct := 3/10, open_ts := 1, close_ts := 3, duration_s := 2 }] ∧
    ((list_roundtrips s4_trades 0 100).map RoundTrip.pnl).sum = 40 := by
  constructor <;>
    repeat (first
      | simp only [String.reduceEq, reduceIte]
      | norm_num [list_roundtrips, sort_by_id, insert_by_id, group_keys, sort_desc,
          insert_desc, roundtrips_for_group, process_trade, fifo_match, side_upper,
          EPS, s4_trades])

/-! ## Today's P&L (`app/storage.py` `calculate_todays_pnl`) -/

/-- Python `rt.get(key, default)` for numeric values on a round-trip dict.
The dict built by `list_roundtrips` holds exactly the keys of `RoundTrip`
(numeric ones listed below); any other key — in particular `"exit_ts"`,
which `calculate_todays_pnl` asks for — returns the default. -/
def rt_get_num (rt : RoundTrip) (key : String) (default : ℚ) : ℚ :=
  if key = "qty" then rt.qty
  else if key = "entry_price" then rt.entry_price
  else if key = "exit_price" then rt.exit_price
  else if key = "pnl" then rt.pnl
  else if key = "pnl_pct" then rt.pnl_pct
  else if key = "open_ts" then (rt.open_ts : ℚ)
  else if key = "close_ts" then (rt.close_ts : ℚ)
  else if key = "duration_s" then (rt.duration_s : ℚ)
  else default

/-- The stablecoin symbols excluded from P&L sums
(`{'USDC_USDT', 'BUSD_USDT', 'USDT_USDC', 'USDT_BUSD'}`). -/
def stablecoin_pairs : List String :=
  ["USDC_USDT", "BUSD_USDT", "USDT_USDC", "USDT_BUSD"]

/-- Transcription of `Storage.calculate_todays_pnl` (`app/storage.py` lines
516–553).  `today_ts` is the Sydney-timezone midnight epoch computed from the
wall clock, passed in as a parameter.  The source reads
`rt.get('exit_ts', 0)` — but the round-trip dicts carry the key `close_ts`,
not `exit_ts` — and skips every round-trip with `exit_ts < today_ts`. -/
def calculate_todays_pnl (today_ts : ℤ) (trades : List TradeRow) : ℚ :=
  let roundtrips := list_roundtrips trades 0 100000
  roundtrips.foldl (fun acc rt =>
    if rt_get_num rt "exit_ts" 0 < (today_ts : ℚ) then acc
    else if stablecoin_pairs.contains rt.symbol then acc
    else acc + rt_get_num rt "pnl" 0) 0

/-- A trade log with one round-trip of pnl 40 closed shortly after the
(Sydney) midnight timestamp 1760000000. -/
def c3_trades : List TradeRow :=
  [{ id := 1, ts := 1760000100, bot_name := "w", symbol := "BTC_USDT",
     manager := none, side := "buy", qty := 1, price := 100 },
   { id := 2, ts := 1760000200, bot_name := "w", symbol := "BTC_USDT",
     manager := none, side := "sell", qty := 1, price := 140 }]

/-- C3 (code bug): `calculate_todays_pnl` reads `rt.get('exit_ts', 0)` but the
round-trip dicts produced by `list_roundtrips` carry the key `close_ts`, so the
lookup always yields the default 0, `0 < today_ts` filters every round-trip
out, and the function returns 0 — here even though the log contains a
round-trip with pnl 40 closed after midnight (close_ts 1760000200 ≥
1760000000), whose close_ts-restricted sum per the spec is 40 ≠ 0. -/
theorem C3_todays_pnl_key_mismatch :
    calculate_todays_pnl 1760000000 c3_trades = 0 ∧
    (((list_roundtrips c3_trades 0 100000).filter
        (fun rt => decide ((1760000000:ℤ) ≤ rt.close_ts))).map RoundTrip.pnl).sum = 40 ∧
    ((40 : ℚ) ≠ 0) := by
  refine ⟨?_, ?_, by norm_num⟩ <;>
    repeat (first
      | simp only [String.reduceEq, reduceIte]
      | norm_num [calculate_todays_pnl, rt_get_num, stablecoin_pairs,
          list_roundtrips, sort_by_id, insert_by_id, group_keys, sort_desc,
          insert_desc, roundtrips_for_group, process_trade, fifo_match, side_upper,
          EPS, c3_trades])

/-! ## Bot snapshots (`app/storage.py` `upsert_bot` / `load_bots`) -/

/-- A row of the `bots` table (columns read/written by `upsert_bot` and
`load_bots`; `starting_allocation` is nullable — legacy rows may hold NULL). -/
structure BotsRow where
  manager : Option String
  symbol : String
  tf : String
  strategy : String
  allocation : ℚ
  starting_allocation : Option ℚ
  cash : ℚ
  pos_qty : ℚ
  avg_price : ℚ
  equity : ℚ
  score : ℚ
  trades : ℕ
deriving Repr, DecidableEq

/-- The keyword arguments of `Storage.upsert_bot`;
`starting_allocation` defaults to `None` and is omitted by every caller in
`StrategyManager.step`. -/
structure UpsertArgs where
  name : String
  manager : Option String
  symbol : String
  tf : String
  strategy : String
  allocation : ℚ
  starting_allocation : Option ℚ := none
  cash : ℚ
  pos_qty : ℚ
  avg_price : ℚ
  equity : ℚ
  score : ℚ
  trades : ℕ
deriving Repr, DecidableEq

/-- SQL `COALESCE(a, b, c)` over two nullable operands and a fallback. -/
def coalesce3 (a b : Option ℚ) (c : ℚ) : ℚ :=
  match a with
  | some x => x
  | none => match b with
            | some y => y
            | none => c

/-- Transcription of `Storage.upsert_bot` (`app/storage.py` lines 253–299).
The Python layer first computes
`start_alloc = starting_allocation if starting_allocation is not None else
allocation` — so the value bound to the SQL `excluded.starting_allocation` is
never NULL — then runs
`INSERT ... ON CONFLICT(name) DO UPDATE SET ... starting_allocation =
COALESCE(excluded.starting_allocation, bots.starting_allocation,
excluded.allocation)`.  The bots table is modelled as an association list
keyed by name. -/
def upsert_bot (table : List (String × BotsRow)) (a : UpsertArgs) :
    List (String × BotsRow) :=
  let start_alloc : ℚ := a.starting_allocation.getD a.allocation
  let newRow : BotsRow :=
    { manager := a.manager, symbol := a.symbol, tf := a.tf, strategy := a.strategy,
      allocation := a.allocation, starting_allocation := some start_alloc,
      cash := a.cash, pos_qty := a.pos_qty, avg_price := a.avg_price,
      equity := a.equity, score := a.score, trades := a.trades }
  match table.find? (fun kv => kv.1 = a.name) with
  | none => table ++ [(a.name, newRow)]
  | some _ =>
    table.map (fun kv =>
      if kv.1 = a.name then
        (kv.1, { newRow with
                  starting_allocation :=
                    some (coalesce3 (some start_alloc) kv.2.starting_allocation
                            a.allocation) })
      else kv)

/-- The per-bot view returned by `Storage.load_bots` (`app/storage.py` lines
300–324), restricted to the accounting fields:
`starting_allocation` falls back to `allocation` when the column is NULL. -/
structure LoadedBot where
  allocation : ℚ
  starting_allocation : ℚ
  cash : ℚ
  pos_qty : ℚ
  equity : ℚ
  score : ℚ
  trades : ℕ
deriving Repr, DecidableEq

/-- Transcription of `Storage.load_bots` for one bot name. -/
def load_bot (table : List (String × BotsRow)) (name : String) :
    Option LoadedBot :=
  (table.find? (fun kv => kv.1 = name)).map (fun kv =>
    { allocation := kv.2.allocation,
      starting_allocation := kv.2.starting_allocation.getD kv.2.allocation,
      cash := kv.2.cash, pos_qty := kv.2.pos_qty, equity := kv.2.equity,
      score := kv.2.score, trades := kv.2.trades })

/-- The upsert issued for a new bot at portfolio build
(`app/portfolio.py` `_apply_saved_state`, which passes
`starting_allocation=b.starting_allocation`). -/
def seed_upsert (name : String) (allocation starting cash equity : ℚ) : UpsertArgs :=
  { name := name, manager := none, symbol := "BTC_USDT", tf := "5m",
    strategy := "MeanReversion", allocation := allocation,
    starting_allocation := some starting, cash := cash, pos_qty := 0,
    avg_price := 0, equity := equity, score := 0, trades := 0 }

/-- The upsert issued by `StrategyManager.step` (`app/managers.py` lines
20–35 and 47–62): **no** `starting_allocation` argument. -/
def manager_step_upsert (name : String) (allocation cash pos_qty avg_price equity score : ℚ)
    (trades : ℕ) : UpsertArgs :=
  { name := name, manager := some "MR", symbol := "BTC_USDT", tf := "5m",
    strategy := "MeanReversion", allocation := allocation,
    cash := cash, pos_qty := pos_qty, avg_price := avg_price, equity := equity,
    score := score, trades := trades }

/-- The bots table after the C2 scenario: seed a bot with
allocation = starting_allocation = 1000; its equity grows to 1100; the (real)
within-strategy allocator then sets allocation := 1100, and
`StrategyManager.step` persists via `upsert_bot` without a
`starting_allocation` argument. -/
def c2_table_after : List (String × BotsRow) :=
  let t0 := upsert_bot [] (seed_upsert "w" 1000 1000 1000 1000)
  let new_alloc := (rebalance_within_allocations [⟨0, 1100⟩] (1/20) (4/5)).headI
  upsert_bot t0 (manager_step_upsert "w" new_alloc 1100 0 0 1100 0 0)

/-- C2 (code bug): `starting_allocation` is rewritten by rebalancing +
persistence.  The Python layer substitutes the current `allocation` for an
omitted `starting_allocation` before the SQL runs, so
`excluded.starting_allocation` is never NULL and the
`COALESCE(excluded.starting_allocation, bots.starting_allocation, ...)`
preservation branch is dead: every `StrategyManager.step` persist overwrites
the stored baseline with the current (rebalanced) allocation.  Concretely, a
bot constructed with starting_allocation 1000 whose allocation is rebalanced
to 1100 re-hydrates with starting_allocation 1100 ≠ 1000 — contradicting the
code's own comment "It never changes, even when rebalancing modifies
allocation" (`app/bots.py` lines 69–70). -/
theorem C2_starting_allocation_overwritten :
    (rebalance_within_allocations [⟨0, 1100⟩] (1/20) (4/5)).headI = 1100 ∧
    (load_bot (upsert_bot [] (seed_upsert "w" 1000 1000 1000 1000)) "w").map
      LoadedBot.starting_allocation = some 1000 ∧
    (load_bot c2_table_after "w").map LoadedBot.starting_allocation = some 1100 ∧
    ((1100 : ℚ) ≠ 1000) := by
  refine ⟨?_, ?_, ?_, by norm_num⟩ <;>
    norm_num [c2_table_after, upsert_bot, load_bot, seed_upsert,
      manager_step_upsert, coalesce3, rebalance_within_allocations,
      renorm_shares, clamped_shares, raw_shares, clamp_frac]

/-! ## Reset-for-testing endpoint (`app/__init__.py` `reset_for_testing`) -/

/-- The mutable store state touched by `reset_for_testing`. -/
structure DbState where
  settings : Settings
  trades : List TradeRow
  equity_history : List (ℤ × ℚ)
  bots : List (String × BotsRow)
deriving DecidableEq

/-- Transcription of the `reset_for_testing` handler (`app/__init__.py` lines
667–777).  Inputs: the configured `EXECUTION_MODE`, the store, the names of
the live portfolio's bots and the recomputed per-bot capital.  Output:
(HTTP status, whether the body is an `{error}` payload, new store state).
The two precondition checks run before any mutation; the success path clears
`trades` and `equity_history`, deletes orphaned bot rows and resets every
live bot via `upsert_bot` with fresh capital. -/
def reset_for_testing (execution_mode : String) (db : DbState)
    (pm_bot_names : List String) (initial_capital : ℚ) : ℕ × Bool × DbState :=
  if ¬ (execution_mode = "paper" ∨ execution_mode = "binance_testnet") then
    (403, true, db)
  else if get_trading_paused db.settings = false then
    (400, true, db)
  else
    let bots1 := db.bots.filter (fun kv =>
      pm_bot_names.contains kv.1 || kv.1 == "manual_trade")
    let bots2 := pm_bot_names.foldl (fun t name =>
      upsert_bot t
        { name := name, manager := some "reset", symbol := "BTC_USDT", tf := "5m",
          strategy := "MeanReversion", allocation := initial_capital,
          starting_allocation := some initial_capital, cash := initial_capital,
          pos_qty := 0, avg_price := 0, equity := initial_capital, score := 0,
          trades := 0 }) bots1
    (200, false, { db with trades := [], equity_history := [], bots := bots2 })

/-- C9: whenever the `trading_paused` setting is false, `reset_for_testing`
rejects with a 4xx error payload (400, or 403 when the execution mode already
forbids reset) and mutates nothing: both precondition checks precede every
DELETE and upsert, so the store state is returned unchanged. -/
theorem C9_reset_requires_pause (mode : String) (db : DbState)
    (names : List String) (cap : ℚ)
    (h : get_trading_paused db.settings = false) :
    (400 ≤ (reset_for_testing mode db names cap).1 ∧
      (reset_for_testing mode db names cap).1 < 500) ∧
    (reset_for_testing mode db names cap).2.1 = true ∧
    (reset_for_testing mode db names cap).2.2 = db := by
  by_cases hm : mode = "paper" ∨ mode = "binance_testnet" <;>
    simp [reset_for_testing, hm, h]

/-- Witness for C9: a paper-mode store with `trading_paused = false` is
rejected with an unchanged state. -/
theorem C9_reset_requires_pause_witness :
    (400 ≤ (reset_for_testing "paper" ⟨[("trading_paused", false)], [], [], []⟩ [] 1000).1 ∧
      (reset_for_testing "paper" ⟨[("trading_paused", false)], [], [], []⟩ [] 1000).1 < 500) ∧
    (reset_for_testing "paper" ⟨[("trading_paused", false)], [], [], []⟩ [] 1000).2.1 = true ∧
    (reset_for_testing "paper" ⟨[("trading_paused", false)], [], [], []⟩ [] 1000).2.2
      = ⟨[("trading_paused", false)], [], [], []⟩ :=
  C9_reset_requires_pause "paper" ⟨[("trading_paused", false)], [], [], []⟩ [] 1000 rfl

end Tradintel
